import Mathlib

/-!
Shallow embedding of the AgentAI repository (Tool_creation.py, routing.py,
intent_classification.py) and verification of its specification.

Python values that flow through the tool layer are modelled by `PyObj`;
Python dicts are association lists with insertion-order update semantics
(a key that already exists is overwritten in place, a fresh key is appended,
matching CPython dict behaviour). A Python callable that may raise is
modelled as a function into `Except String`, the error carrying `str(e)`.
The external model backend (google.generativeai) is an opaque collaborator
and is therefore a parameter of each embedded operation.
-/

/-- A Python runtime value as it appears in tool arguments/results. -/
inductive PyObj where
  | str (s : String)
  | num (q : ℚ)
  | bool (b : Bool)
  | pynone
  | dict (kvs : List (String × PyObj))
  | list (xs : List PyObj)

/-- First-match lookup in an association list, modelling Python dict lookup
(dict keys are unique, so first match equals the dict entry). -/
def dictGet {β : Type} : List (String × β) → String → Option β
  | [], _ => Option.none
  | (k', v) :: rest, k => if k' = k then some v else dictGet rest k

/-- Python dict assignment `d[k] = v`: overwrite in place if the key exists,
otherwise append at the end (CPython insertion-order semantics). -/
def dictSet {β : Type} : List (String × β) → String → β → List (String × β)
  | [], k, v => [(k, v)]
  | (k', v') :: rest, k, v =>
      if k' = k then (k, v) :: rest else (k', v') :: dictSet rest k v

/-- The keys of a modelled dict, in insertion order. -/
def dictKeys {β : Type} (d : List (String × β)) : List String :=
  d.map Prod.fst

/-!
## Tool_creation.py : ToolRegistry (lines 24-54)

The registry stores `self.tools : Dict[str, Callable]` and
`self.tool_definitions : list`. The kwargs bag a tool receives is kept
abstract as a type parameter `κ`; a tool executable either returns a value
or raises (modelled by `Except String PyObj`, the error holding `str(e)`).
The tool definition dicts built in the source (lines 202-287) all have the
literal shape `name` / `description` / `parameters`, modelled as a record.
Methods are embedded with the receiver threaded explicitly, so `execute`
returns the result together with the registry state after the call.
-/

/-- A tool definition dict as built at lines 202-287 of Tool_creation.py:
keys `name`, `description` and `parameters`. -/
structure ToolDeclaration where
  name : String
  description : String
  parameters : PyObj

/-- The state of `ToolRegistry.__init__` (lines 26-28). -/
structure ToolRegistry (κ : Type) where
  tools : List (String × (κ → Except String PyObj))
  tool_definitions : List ToolDeclaration

/-- ToolRegistry.register (lines 30-34): `self.tools[name] = func` and
`self.tool_definitions.append(definition)` (the logging call has no
registry effect). -/
def ToolRegistry.register {κ : Type} (reg : ToolRegistry κ) (name : String)
    (func : κ → Except String PyObj) (definition : ToolDeclaration) : ToolRegistry κ :=
  { tools := dictSet reg.tools name func
    tool_definitions := reg.tool_definitions ++ [definition] }

/-- The try/except body of ToolRegistry.execute (lines 41-47): run the
looked-up callable; a raised fault is caught and converted to the dict
`\x7b"error": f"Tool execution failed: \x7bstr(e)\x7d"\x7d`. -/
def ToolRegistry.runToolResult {κ : Type} (func : κ → Except String PyObj) (kwargs : κ) : PyObj :=
  match func kwargs with
  | Except.ok result => result
  | Except.error e => PyObj.dict [("error", PyObj.str ("Tool execution failed: " ++ e))]

/-- ToolRegistry.execute (lines 36-47). The method mutates no registry
field, so the threaded state in every branch is the input registry. -/
def ToolRegistry.execute {κ : Type} (reg : ToolRegistry κ) (name : String) (kwargs : κ) :
    PyObj × ToolRegistry κ :=
  match dictGet reg.tools name with
  | Option.none =>
      (PyObj.dict [("error", PyObj.str ("Tool \x27" ++ name ++ "\x27 not found"))], reg)
  | some func => (ToolRegistry.runToolResult func kwargs, reg)

/-- The `tools_info` list built by ToolRegistry.list_tools (lines 49-54):
one line `- \x7bname\x7d: \x7bdescription\x7d` per stored definition. -/
def ToolRegistry.toolsInfo {κ : Type} (reg : ToolRegistry κ) : List String :=
  reg.tool_definitions.map (fun d => "- " ++ d.name ++ ": " ++ d.description)

/-- ToolRegistry.list_tools (lines 49-54). -/
def ToolRegistry.list_tools {κ : Type} (reg : ToolRegistry κ) : String :=
  String.intercalate "\n" (ToolRegistry.toolsInfo reg)

/-!
## Tool_creation.py : calculate (lines 85-115)

The operands are CPython floats; the arithmetic itself is irrelevant to the
verified claims, so the float domain is abstracted into `CalcOps`: total
binary add/subtract/multiply/divide, partial power/sqrt/modulo (these can
raise in Python: `0.0 ** -1`, `math.sqrt(-1)`, `x % 0`), and the `y != 0`
test used by the divide lambda (`isZero`, so that float peculiarities such
as `-0.0 == 0` stay representable). The result slot of the returned dict
can hold either a number or the literal string the divide lambda produces.
-/

/-- Abstract interface of the float operations used by `calculate`. -/
structure CalcOps (α : Type) where
  isZero : α → Bool
  add : α → α → α
  sub : α → α → α
  mul : α → α → α
  div : α → α → α
  pow : α → α → Except String α
  sqrt : α → Except String α
  mod : α → α → Except String α

/-- A value that can appear in the dict returned by `calculate`. -/
inductive CalcVal (α : Type) where
  | num (x : α)
  | str (s : String)
  | pynone

/-- The success dict of calculate (lines 108-113). `operand_b` is the `b`
that was passed in (`None` when absent). -/
def calcSuccess {α : Type} (operation : String) (a : α) (b : Option α) (result : CalcVal α) :
    List (String × CalcVal α) :=
  [("operation", CalcVal.str operation),
   ("operand_a", CalcVal.num a),
   ("operand_b", match b with | some y => CalcVal.num y | Option.none => CalcVal.pynone),
   ("result", result)]

/-- The keys of the `operations` lambda table (lines 88-96). -/
def calcOpNames : List String :=
  ["add", "subtract", "multiply", "divide", "power", "sqrt", "modulo"]

/-- The two-argument lambdas of the `operations` table (lines 88-96),
applied to `x` and `y`. The divide entry is
`x / y if y != 0 else "Error: Division by zero"`. -/
def calcBinOp {α : Type} (ops : CalcOps α) : String → α → α → Except String (CalcVal α)
  | "add", x, y => Except.ok (CalcVal.num (ops.add x y))
  | "subtract", x, y => Except.ok (CalcVal.num (ops.sub x y))
  | "multiply", x, y => Except.ok (CalcVal.num (ops.mul x y))
  | "divide", x, y =>
      Except.ok (if ops.isZero y then CalcVal.str "Error: Division by zero"
                 else CalcVal.num (ops.div x y))
  | "power", x, y => (ops.pow x y).map CalcVal.num
  | "modulo", x, y => (ops.mod x y).map CalcVal.num
  | _, _, _ => Except.error "unreachable: guarded by the membership test"

/-- calculate (lines 85-115). The whole body sits in a try/except whose
handler returns `\x7b"error": f"Calculation failed: \x7bstr(e)\x7d"\x7d`; the only
statements that can raise are the partial lambdas, surfaced here as the
`Except.error` branches. -/
def calculate {α : Type} (ops : CalcOps α) (operation : String) (a : α) (b : Option α) :
    List (String × CalcVal α) :=
  if operation ∉ calcOpNames then
    [("error", CalcVal.str ("Unknown operation: " ++ operation))]
  else if operation = "sqrt" then
    match ops.sqrt a with
    | Except.ok r => calcSuccess operation a b (CalcVal.num r)
    | Except.error e => [("error", CalcVal.str ("Calculation failed: " ++ e))]
  else
    match b with
    | Option.none => [("error", CalcVal.str "Second operand required for this operation")]
    | some y =>
        match calcBinOp ops operation a y with
        | Except.ok v => calcSuccess operation a b v
        | Except.error e => [("error", CalcVal.str ("Calculation failed: " ++ e))]

/-!
## Tool_creation.py : the per-prompt dispatch loop of main (lines 374-401)

One user turn: the chat session (an opaque external handle) has already
answered the user query with `response`; the inner while loop then runs up
to `max_iterations = 5` passes. Each pass either processes the first
function call of the response via `process_tool_call` (lines 322-344:
execute the tool, send the serialized result back, obtain the next
response) or prints the final text and breaks. After the loop, the warning
is printed iff `iteration >= max_iterations`.

The chat session is modelled as a state `st : σ` together with
`send : σ → String → PyObj → σ × ModelResponse κ`, the function that
delivers a tool result (tool name + result payload) to the backend and
returns the next response; the backend is free to behave arbitrarily.
-/

/-- A function-call directive in a backend response. -/
structure FunctionCall (κ : Type) where
  name : String
  args : κ

/-- The part of a backend response the loop inspects: the first
function-call part if any, and the response text. -/
structure ModelResponse (κ : Type) where
  function_call : Option (FunctionCall κ)
  text : String

/-- One observable tool cycle: tool name, arguments, and the executed
result (printed at lines 327-333 and sent back to the backend). -/
structure ToolCycle (κ : Type) where
  name : String
  args : κ
  result : PyObj

/-- What the inner while loop produces: the tool cycles it performed, the
final printed text (none when the loop exhausted its budget), the final
value of the `iteration` counter, and the chat state reached. -/
structure LoopOut (κ σ : Type) where
  cycles : List (ToolCycle κ)
  finalText : Option String
  iteration : Nat
  chatState : σ

/-- Prepend an observed tool cycle to a loop outcome. -/
def LoopOut.addCycle {κ σ : Type} (c : ToolCycle κ) (out : LoopOut κ σ) : LoopOut κ σ :=
  { out with cycles := c :: out.cycles }

/-- The inner while loop of main (lines 381-397), with `process_tool_call`
(lines 322-344) inlined: while `iteration < mi`, increment `iteration`;
if the response carries a function call, execute the tool through the
registry, send the result back and continue with the new response;
otherwise print the final text and break. -/
def dispatchAux {κ σ : Type} (reg : ToolRegistry κ)
    (send : σ → String → PyObj → σ × ModelResponse κ) (mi iteration : Nat)
    (st : σ) (response : ModelResponse κ) : LoopOut κ σ :=
  if _h : iteration < mi then
    match response.function_call with
    | some fc =>
        let er := ToolRegistry.execute reg fc.name fc.args
        let sr := send st fc.name er.1
        LoopOut.addCycle ⟨fc.name, fc.args, er.1⟩
          (dispatchAux er.2 send mi (iteration + 1) sr.1 sr.2)
    | Option.none =>
        { cycles := [], finalText := some response.text,
          iteration := iteration + 1, chatState := st }
  else
    { cycles := [], finalText := Option.none, iteration := iteration, chatState := st }
termination_by mi - iteration
decreasing_by omega

/-- The literal bound `max_iterations = 5` of main (line 378). -/
def max_iterations : Nat := 5

/-- What one user turn surfaces to the caller: the tool cycles, the final
printed model text if any, and whether the max-iterations warning
(lines 399-401) was printed. -/
structure TurnResult (κ : Type) where
  cycles : List (ToolCycle κ)
  finalText : Option String
  warned : Bool

/-- One user turn from the point where the initial backend response `r0`
to the user query is in hand (line 375): run the inner loop with
`max_iterations = 5` starting at `iteration = 0`, then surface the warning
iff `iteration >= max_iterations` (line 399). -/
def runTurn {κ σ : Type} (reg : ToolRegistry κ)
    (send : σ → String → PyObj → σ × ModelResponse κ) (st0 : σ)
    (r0 : ModelResponse κ) : TurnResult κ :=
  let out := dispatchAux reg send max_iterations 0 st0 r0
  { cycles := out.cycles, finalText := out.finalText,
    warned := decide (max_iterations ≤ out.iteration) }

/-!
## routing.py : route_llm (lines 10-22)

`route_llm` sends a fixed classification template around the prompt to the
router model, normalizes the returned text with `.strip().lower()`, and
picks the `pro` handle iff the normalized text contains the substring
`"complex"` (Python `in`), else the `flash` handle. The router model call
is an external collaborator, modelled as `gen : String → String`.
-/

/-- The two preconfigured model handles of routing.py (lines 5-6). -/
inductive ModelHandle where
  | flash
  | pro
deriving DecidableEq

/-- The f-string classification template of route_llm (lines 11-18). -/
def routerPrompt (prompt : String) : String :=
  "\nClassify this request into one label:\n- simple\n- complex\n\nRequest: "
    ++ prompt ++ "\nAnswer only the label.\n"

/-- Computable test that `pat` occurs at the very start of `s`. -/
def listStartsWith : List Char → List Char → Bool
  | [], _ => true
  | _ :: _, [] => false
  | a :: pat, b :: s => (a == b) && listStartsWith pat s

/-- Computable test that `pat` occurs contiguously somewhere in `s`. -/
def listContainsSeq (pat : List Char) : List Char → Bool
  | [] => listStartsWith pat []
  | b :: s => listStartsWith pat (b :: s) || listContainsSeq pat s

/-- Python substring membership `pat in s`. -/
def pyIn (pat s : String) : Bool :=
  listContainsSeq pat.toList s.toList

/-- Python str.strip(): drop leading and trailing whitespace. -/
def pyStrip (s : String) : String :=
  ⟨((s.data.dropWhile Char.isWhitespace).reverse.dropWhile Char.isWhitespace).reverse⟩

/-- Python str.lower() (ASCII case mapping, which covers every string the
router handles). -/
def pyLower (s : String) : String :=
  ⟨s.data.map Char.toLower⟩

/-- route_llm (lines 10-22): classify, normalize with strip/lower, then
return `pro` iff `"complex" in decision`, else `flash`. -/
def route_llm (gen : String → String) (prompt : String) : ModelHandle :=
  if pyIn "complex" (pyLower (pyStrip (gen (routerPrompt prompt)))) then ModelHandle.pro
  else ModelHandle.flash

/-!
## intent_classification.py : build_dynamic_schema and classify_intent

JSON values produced by `json.loads` are modelled by `PyJson` (objects are
the parsed dicts, so their keys are unique). `json.loads` itself is Python
stdlib, an external collaborator: it is a parameter
`loads : String → Except String PyJson`, failing on invalid JSON. The
backend call is a parameter `gen : String → String` giving `response.text`.
The dynamically created pydantic class `DynamicIntentModel` with the single
field `intent : Literal[tuple(intents)]` is embedded as its validation
function: unpacking a non-mapping raises, a missing `intent` field or a
value outside `intents` raises a validation fault, a member of `intents`
constructs the model instance. classify_intent (lines 34-57) propagates
every such fault to the caller; `Except.error` is the raised fault.
-/

/-- A parsed JSON value as returned by json.loads. -/
inductive PyJson where
  | str (s : String)
  | num (q : ℚ)
  | bool (b : Bool)
  | null
  | arr (elems : List PyJson)
  | obj (fields : List (String × PyJson))

/-- The validated pydantic instance: a record with the single `intent`
field (lines 26-29). -/
structure DynamicIntentModel where
  intent : String

/-- build_dynamic_schema (lines 19-31), embedded as the validation
behaviour of the Literal-constrained pydantic class it creates, i.e. of
`IntentModel(**parsed_json)` at line 57. -/
def build_dynamic_schema (intents : List String) :
    PyJson → Except String DynamicIntentModel :=
  fun parsed_json =>
    match parsed_json with
    | PyJson.obj fields =>
        match dictGet fields "intent" with
        | some (PyJson.str s) =>
            if s ∈ intents then Except.ok ⟨s⟩
            else Except.error ("ValidationError: \x27" ++ s ++ "\x27 is not a permitted intent")
        | some _ => Except.error "ValidationError: intent must be one of the literal strings"
        | Option.none => Except.error "ValidationError: field intent is required"
    | _ => Except.error "TypeError: keyword argument unpacking requires a mapping"

/-- The f-string prompt of classify_intent (lines 40-50), with
`intent_list = "\n- ".join(intents)`. -/
def intentPrompt (user_input : String) (intents : List String) : String :=
  "\n    Classify the user intent into one of:\n    - "
    ++ String.intercalate "\n- " intents
    ++ "\n\n    Return ONLY valid JSON:\n    \x7b\"intent\": \"<one_of_the_above>\"\x7d\n\n    User: "
    ++ user_input ++ "\n    "

/-- classify_intent (lines 34-57): build the dynamic schema, prompt the
backend, `json.loads(response.text.strip())` (a parse fault propagates,
tagged JSONDecodeError), then validate with the dynamic schema (a
validation fault propagates). -/
def classify_intent (loads : String → Except String PyJson) (gen : String → String)
    (user_input : String) (intents : List String) : Except String DynamicIntentModel :=
  match loads (pyStrip (gen (intentPrompt user_input intents))) with
  | Except.error e => Except.error ("JSONDecodeError: " ++ e)
  | Except.ok parsed_json => build_dynamic_schema intents parsed_json

/-!
## Concrete instances used by witnesses and the counterexample
-/

/-- An empty registry (`ToolRegistry()` at line 57), at kwargs type Unit. -/
def demoEmptyRegistry : ToolRegistry Unit := ⟨[], []⟩

/-- A tool executable that always raises. -/
def demoFail : Unit → Except String PyObj :=
  fun _ => Except.error "tool blew up"

/-- A declaration shaped like weather_tool (lines 202-215). -/
def demoFailDecl : ToolDeclaration :=
  ⟨"get_weather", "Get current weather information for a given city", PyObj.dict []⟩

/-- A registry holding one always-raising tool. -/
def demoFailReg : ToolRegistry Unit :=
  ToolRegistry.register demoEmptyRegistry "get_weather" demoFail demoFailDecl

/-- First registered executable for the re-registration scenarios. -/
def demoF1 : Unit → Except String PyObj := fun _ => Except.ok (PyObj.str "old")

/-- Second (overwriting) executable for the re-registration scenarios. -/
def demoF2 : Unit → Except String PyObj := fun _ => Except.ok (PyObj.str "new")

/-- A declaration shaped like calculator_tool (lines 217-239). -/
def demoCalcDecl : ToolDeclaration :=
  ⟨"calculate", "Perform mathematical calculations", PyObj.dict []⟩

/-- A second declaration under the same tool name. -/
def demoCalcDecl2 : ToolDeclaration :=
  ⟨"calculate", "Perform mathematical calculations, revised", PyObj.dict []⟩

/-- A registry where `calculate` is already registered once. -/
def demoRegC8 : ToolRegistry Unit :=
  ToolRegistry.register demoEmptyRegistry "calculate" demoF1 demoCalcDecl

/-- A backend response that requests the `calculate` tool. -/
def demoCallResp : ModelResponse Unit := ⟨some ⟨"calculate", ()⟩, ""⟩

/-- A scripted backend that answers every tool result with another tool
call and never a final answer. -/
def demoAlwaysCallSend : Unit → String → PyObj → Unit × ModelResponse Unit :=
  fun _ _ _ => ((), demoCallResp)

/-- Scripted response with a tool call, for the counterexample backend. -/
def cexRespCall : ModelResponse Unit := ⟨some ⟨"calculate", ()⟩, "x"⟩

/-- Scripted final-answer response of the counterexample backend. -/
def cexRespFinal : ModelResponse Unit := ⟨Option.none, "done"⟩

/-- A scripted backend (chat state = number of tool results received) that
requests a tool call three more times after the initial one and then
returns the final answer "done": the turn performs exactly 4 tool cycles
and its 5th loop pass prints the final text. -/
def cexSend : Nat → String → PyObj → Nat × ModelResponse Unit :=
  fun st _ _ => (st + 1, if st + 1 < 4 then cexRespCall else cexRespFinal)

/-- Demo instantiation of the abstract float interface at ℚ, used only to
witness the calculate theorem; the partial operations are left as faults
since no verified claim evaluates them. -/
def ratCalcOps : CalcOps ℚ where
  isZero y := decide (y = 0)
  add x y := x + y
  sub x y := x - y
  mul x y := x * y
  div x y := x / y
  pow _ _ := Except.error "power not modelled at this demo type"
  sqrt _ := Except.error "sqrt not modelled at this demo type"
  mod _ _ := Except.error "modulo not modelled at this demo type"

/-- A json.loads stub whose value is the parse of `\x7b"intent": "order_food"\x7d`. -/
def demoLoads : String → Except String PyJson :=
  fun _ => Except.ok (PyJson.obj [("intent", PyJson.str "order_food")])

/-- A backend stub returning the JSON text for intent order_food. -/
def demoGen : String → String :=
  fun _ => "\x7b\"intent\": \"order_food\"\x7d"

/-- A json.loads stub whose value is the parse of `\x7b"intent": "cancel_flight"\x7d`. -/
def demoLoadsBad : String → Except String PyJson :=
  fun _ => Except.ok (PyJson.obj [("intent", PyJson.str "cancel_flight")])

/-- A backend stub returning the JSON text for intent cancel_flight. -/
def demoGenBad : String → String :=
  fun _ => "\x7b\"intent\": \"cancel_flight\"\x7d"

/-!
## Supporting lemmas, then the verified claims
-/

theorem dictGet_dictSet_self {β : Type} (d : List (String × β)) (k : String) (v : β) :
    dictGet (dictSet d k v) k = some v := by
  induction d with
  | nil => simp [dictSet, dictGet]
  | cons hd tl ih =>
      obtain ⟨k', v'⟩ := hd
      by_cases h : k' = k
      · simp [dictSet, dictGet, h]
      · simp [dictSet, dictGet, h, ih]

theorem dictGet_dictSet_ne {β : Type} (d : List (String × β)) (k k' : String) (v : β)
    (h : k ≠ k') : dictGet (dictSet d k v) k' = dictGet d k' := by
  induction d with
  | nil => simp [dictSet, dictGet, h]
  | cons hd tl ih =>
      obtain ⟨k0, v0⟩ := hd
      by_cases h0 : k0 = k
      · subst h0
        simp [dictSet, dictGet, h]
      · simp [dictSet, dictGet, h0, ih]

theorem dictKeys_dictSet {β : Type} (d : List (String × β)) (k : String) (v : β) :
    dictKeys (dictSet d k v) =
      if k ∈ dictKeys d then dictKeys d else dictKeys d ++ [k] := by
  induction d with
  | nil => simp [dictSet, dictKeys]
  | cons hd tl ih =>
      obtain ⟨k', v'⟩ := hd
      by_cases h : k' = k
      · subst h
        simp [dictSet, dictKeys]
      · have hne : ¬ k = k' := fun hk => h hk.symm
        simp only [dictKeys, List.map_cons] at ih ⊢
        by_cases hmem : k ∈ List.map Prod.fst tl
        · simp [dictSet, h, hmem, hne, ih]
        · simp [dictSet, h, hmem, hne, ih]

theorem nodup_dictKeys_dictSet {β : Type} (d : List (String × β)) (k : String) (v : β)
    (hnd : (dictKeys d).Nodup) : (dictKeys (dictSet d k v)).Nodup := by
  rw [dictKeys_dictSet]
  by_cases hmem : k ∈ dictKeys d
  · simpa [hmem] using hnd
  · simp [hmem, List.nodup_append, hnd]

theorem count_dictKeys_dictSet {β : Type} (d : List (String × β)) (k : String) (v : β)
    (hnd : (dictKeys d).Nodup) : (dictKeys (dictSet d k v)).count k = 1 := by
  rw [dictKeys_dictSet]
  by_cases hmem : k ∈ dictKeys d
  · simpa [hmem] using List.count_eq_one_of_mem hnd hmem
  · simp [hmem, List.count_append, List.count_eq_zero_of_not_mem hmem]

theorem execute_preserves_registry {κ : Type} (reg : ToolRegistry κ) (name : String) (kwargs : κ) :
    (ToolRegistry.execute reg name kwargs).2 = reg := by
  unfold ToolRegistry.execute
  cases dictGet reg.tools name <;> rfl

theorem execute_of_lookup_some {κ : Type} (reg : ToolRegistry κ) (name : String) (kwargs : κ)
    (func : κ → Except String PyObj) (h : dictGet reg.tools name = some func) :
    ToolRegistry.execute reg name kwargs = (ToolRegistry.runToolResult func kwargs, reg) := by
  unfold ToolRegistry.execute
  rw [h]

theorem dispatchAux_stop {κ σ : Type} (reg : ToolRegistry κ)
    (send : σ → String → PyObj → σ × ModelResponse κ) (mi iteration : Nat)
    (st : σ) (response : ModelResponse κ) (h : ¬ iteration < mi) :
    dispatchAux reg send mi iteration st response =
      { cycles := [], finalText := Option.none, iteration := iteration, chatState := st } := by
  rw [dispatchAux]
  simp [h]

theorem dispatchAux_final {κ σ : Type} (reg : ToolRegistry κ)
    (send : σ → String → PyObj → σ × ModelResponse κ) (mi iteration : Nat)
    (st : σ) (response : ModelResponse κ) (h : iteration < mi)
    (hfc : response.function_call = Option.none) :
    dispatchAux reg send mi iteration st response =
      { cycles := [], finalText := some response.text,
        iteration := iteration + 1, chatState := st } := by
  rw [dispatchAux]
  simp [h, hfc]

theorem dispatchAux_call {κ σ : Type} (reg : ToolRegistry κ)
    (send : σ → String → PyObj → σ × ModelResponse κ) (mi iteration : Nat)
    (st : σ) (response : ModelResponse κ) (fc : FunctionCall κ) (h : iteration < mi)
    (hfc : response.function_call = some fc) :
    dispatchAux reg send mi iteration st response =
      LoopOut.addCycle ⟨fc.name, fc.args, (ToolRegistry.execute reg fc.name fc.args).1⟩
        (dispatchAux (ToolRegistry.execute reg fc.name fc.args).2 send mi (iteration + 1)
          (send st fc.name (ToolRegistry.execute reg fc.name fc.args).1).1
          (send st fc.name (ToolRegistry.execute reg fc.name fc.args).1).2) := by
  rw [dispatchAux]
  simp [h, hfc]

/-- Shape invariant of the inner while loop: either the loop exhausted its
budget (no final text, one tool cycle per remaining iteration, counter
left at the bound), or it printed final text after its tool cycles, with
the counter one past the number of passes it made. -/
theorem dispatchAux_spec {κ σ : Type} (send : σ → String → PyObj → σ × ModelResponse κ)
    (mi : Nat) : ∀ (fuel : Nat) (reg : ToolRegistry κ) (iteration : Nat) (st : σ)
      (response : ModelResponse κ), mi - iteration = fuel →
      ((dispatchAux reg send mi iteration st response).finalText = Option.none →
        (dispatchAux reg send mi iteration st response).cycles.length = mi - iteration ∧
        (dispatchAux reg send mi iteration st response).iteration = max mi iteration) ∧
      (∀ t, (dispatchAux reg send mi iteration st response).finalText = some t →
        iteration + (dispatchAux reg send mi iteration st response).cycles.length < mi ∧
        (dispatchAux reg send mi iteration st response).iteration =
          iteration + (dispatchAux reg send mi iteration st response).cycles.length + 1) := by
  intro fuel
  induction fuel with
  | zero =>
      intro reg iteration st response hfuel
      have h : ¬ iteration < mi := by omega
      rw [dispatchAux_stop reg send mi iteration st response h]
      constructor
      · intro _
        constructor
        · simp
          omega
        · simp
          omega
      · intro t ht
        simp at ht
  | succ n ih =>
      intro reg iteration st response hfuel
      have h : iteration < mi := by omega
      cases hfc : response.function_call with
      | none =>
          rw [dispatchAux_final reg send mi iteration st response h hfc]
          constructor
          · intro hnone
            simp at hnone
          · intro t ht
            simp
            omega
      | some fc =>
          rw [dispatchAux_call reg send mi iteration st response fc h hfc]
          have hrec := ih (ToolRegistry.execute reg fc.name fc.args).2 (iteration + 1)
            (send st fc.name (ToolRegistry.execute reg fc.name fc.args).1).1
            (send st fc.name (ToolRegistry.execute reg fc.name fc.args).1).2 (by omega)
          constructor
          · intro hnone
            simp only [LoopOut.addCycle] at hnone ⊢
            obtain ⟨h1, h2⟩ := hrec.1 hnone
            constructor
            · simp [h1]
              omega
            · simp [h2]
              omega
          · intro t ht
            simp only [LoopOut.addCycle] at ht ⊢
            obtain ⟨h1, h2⟩ := hrec.2 t ht
            constructor
            · simp
              omega
            · simp [h2]
              omega

/-- If the backend answers every tool result with another function call and
the initial response also carries one, the inner loop never reaches the
print-final-text branch. -/
theorem dispatchAux_allcalls {κ σ : Type} (send : σ → String → PyObj → σ × ModelResponse κ)
    (mi : Nat) (hsend : ∀ (st : σ) (n : String) (r : PyObj),
      ((send st n r).2).function_call.isSome = true) :
    ∀ (fuel : Nat) (reg : ToolRegistry κ) (iteration : Nat) (st : σ)
      (response : ModelResponse κ), mi - iteration = fuel →
      response.function_call.isSome = true →
      (dispatchAux reg send mi iteration st response).finalText = Option.none := by
  intro fuel
  induction fuel with
  | zero =>
      intro reg iteration st response hfuel _
      have h : ¬ iteration < mi := by omega
      rw [dispatchAux_stop reg send mi iteration st response h]
  | succ n ih =>
      intro reg iteration st response hfuel hresp
      have h : iteration < mi := by omega
      obtain ⟨fc, hfc⟩ := Option.isSome_iff_exists.mp hresp
      rw [dispatchAux_call reg send mi iteration st response fc h hfc]
      simp only [LoopOut.addCycle]
      exact ih (ToolRegistry.execute reg fc.name fc.args).2 (iteration + 1)
        (send st fc.name (ToolRegistry.execute reg fc.name fc.args).1).1
        (send st fc.name (ToolRegistry.execute reg fc.name fc.args).1).2 (by omega)
        (hsend st fc.name (ToolRegistry.execute reg fc.name fc.args).1)

theorem runTurn_cycles {κ σ : Type} (reg : ToolRegistry κ)
    (send : σ → String → PyObj → σ × ModelResponse κ) (st0 : σ) (r0 : ModelResponse κ) :
    (runTurn reg send st0 r0).cycles =
      (dispatchAux reg send max_iterations 0 st0 r0).cycles := rfl

theorem runTurn_finalText {κ σ : Type} (reg : ToolRegistry κ)
    (send : σ → String → PyObj → σ × ModelResponse κ) (st0 : σ) (r0 : ModelResponse κ) :
    (runTurn reg send st0 r0).finalText =
      (dispatchAux reg send max_iterations 0 st0 r0).finalText := rfl

theorem runTurn_warned {κ σ : Type} (reg : ToolRegistry κ)
    (send : σ → String → PyObj → σ × ModelResponse κ) (st0 : σ) (r0 : ModelResponse κ) :
    (runTurn reg send st0 r0).warned =
      decide (max_iterations ≤ (dispatchAux reg send max_iterations 0 st0 r0).iteration) := rfl

/-- C1: for every registered tool name and argument bag whose executable
raises a fault, ToolRegistry.execute does not propagate the fault: it
returns a dict carrying an "error" key, and the message contains the
underlying failure reason str(e) as a substring. -/
theorem C1_execute_converts_tool_fault {κ : Type} (reg : ToolRegistry κ) (n : String) (k : κ)
    (func : κ → Except String PyObj) (e : String)
    (hreg : dictGet reg.tools n = some func) (hraise : func k = Except.error e) :
    (ToolRegistry.execute reg n k).1 =
      PyObj.dict [("error", PyObj.str ("Tool execution failed: " ++ e))] ∧
    e.data <:+: ("Tool execution failed: " ++ e).data := by
  constructor
  · rw [execute_of_lookup_some reg n k func hreg]
    simp [ToolRegistry.runToolResult, hraise]
  · exact ⟨"Tool execution failed: ".data, [], by simp [String.data_append]⟩

/-- Witness for C1: executing the always-raising demo tool yields the
error-shaped dict containing the failure reason. -/
theorem C1_witness :
    (ToolRegistry.execute demoFailReg "get_weather" ()).1 =
      PyObj.dict [("error", PyObj.str ("Tool execution failed: " ++ "tool blew up"))] ∧
    "tool blew up".data <:+: ("Tool execution failed: " ++ "tool blew up").data :=
  C1_execute_converts_tool_fault demoFailReg "get_weather" () demoFail "tool blew up" rfl rfl

/-- C2: for every name absent from the registry, execute returns the
error-shaped dict naming the missing tool and never raises (the embedded
execute is a total function into a plain result). -/
theorem C2_execute_unknown_tool {κ : Type} (reg : ToolRegistry κ) (n : String) (k : κ)
    (habs : dictGet reg.tools n = Option.none) :
    (ToolRegistry.execute reg n k).1 =
      PyObj.dict [("error", PyObj.str ("Tool \x27" ++ n ++ "\x27 not found"))] ∧
    n.data <:+: ("Tool \x27" ++ n ++ "\x27 not found").data := by
  constructor
  · unfold ToolRegistry.execute
    rw [habs]
  · exact ⟨"Tool \x27".data, "\x27 not found".data, by simp [String.data_append]⟩

/-- Witness for C2: an unregistered name on the empty registry. -/
theorem C2_witness :
    (ToolRegistry.execute demoEmptyRegistry "ghost" ()).1 =
      PyObj.dict [("error", PyObj.str ("Tool \x27" ++ "ghost" ++ "\x27 not found"))] ∧
    "ghost".data <:+: ("Tool \x27" ++ "ghost" ++ "\x27 not found").data :=
  C2_execute_unknown_tool demoEmptyRegistry "ghost" () rfl

/-- C7: execute leaves the registry state (tools mapping and declaration
sequence) unchanged in every case - success, unknown tool, or tool fault -
so subsequent lookups and executions behave as if the call had not
happened. -/
theorem C7_execute_registry_unchanged {κ : Type} (reg : ToolRegistry κ) (n : String) (k : κ) :
    (ToolRegistry.execute reg n k).2 = reg := by
  unfold ToolRegistry.execute
  cases dictGet reg.tools n <;> rfl

/-- C8: re-registering an existing name succeeds silently (register is
total) and afterwards the name maps to exactly the new executable, which
is what execute then invokes. -/
theorem C8_reregister_last_write_wins {κ : Type} (reg : ToolRegistry κ) (n : String)
    (fOld fNew : κ → Except String PyObj) (d : ToolDeclaration) (k : κ)
    (_hold : dictGet reg.tools n = some fOld) (hnd : (dictKeys reg.tools).Nodup) :
    dictGet (ToolRegistry.register reg n fNew d).tools n = some fNew ∧
    ToolRegistry.execute (ToolRegistry.register reg n fNew d) n k =
      (ToolRegistry.runToolResult fNew k, ToolRegistry.register reg n fNew d) ∧
    (dictKeys (ToolRegistry.register reg n fNew d).tools).count n = 1 := by
  refine ⟨dictGet_dictSet_self reg.tools n fNew, ?_, ?_⟩
  · exact execute_of_lookup_some _ n k fNew (dictGet_dictSet_self reg.tools n fNew)
  · exact count_dictKeys_dictSet reg.tools n fNew hnd

/-- Witness for C8: re-registering `calculate` over the demo registry. -/
theorem C8_witness :
    dictGet (ToolRegistry.register demoRegC8 "calculate" demoF2 demoCalcDecl2).tools
        "calculate" = some demoF2 ∧
    ToolRegistry.execute (ToolRegistry.register demoRegC8 "calculate" demoF2 demoCalcDecl2)
        "calculate" () =
      (ToolRegistry.runToolResult demoF2 (),
       ToolRegistry.register demoRegC8 "calculate" demoF2 demoCalcDecl2) ∧
    (dictKeys (ToolRegistry.register demoRegC8 "calculate" demoF2 demoCalcDecl2).tools).count
        "calculate" = 1 :=
  C8_reregister_last_write_wins demoRegC8 "calculate" demoF1 demoF2 demoCalcDecl2 () rfl
    (by decide)

/-- C9: registering the same name twice leaves one (the latest) executable
under the name, but the declaration list gains one entry per call, so
list_tools reports the name twice, in registration order, while execute
runs the latest executable. -/
theorem C9_duplicate_registration_asymmetry {κ : Type} (reg : ToolRegistry κ) (n : String)
    (f1 f2 : κ → Except String PyObj) (d1 d2 : ToolDeclaration) (k : κ)
    (hd1 : d1.name = n) (hd2 : d2.name = n) (hnd : (dictKeys reg.tools).Nodup) :
    dictGet (ToolRegistry.register (ToolRegistry.register reg n f1 d1) n f2 d2).tools n =
      some f2 ∧
    (dictKeys (ToolRegistry.register (ToolRegistry.register reg n f1 d1) n f2 d2).tools).count
      n = 1 ∧
    (ToolRegistry.register (ToolRegistry.register reg n f1 d1) n f2 d2).tool_definitions =
      reg.tool_definitions ++ [d1, d2] ∧
    ToolRegistry.toolsInfo (ToolRegistry.register (ToolRegistry.register reg n f1 d1) n f2 d2) =
      ToolRegistry.toolsInfo reg ++
        ["- " ++ n ++ ": " ++ d1.description, "- " ++ n ++ ": " ++ d2.description] ∧
    (ToolRegistry.execute (ToolRegistry.register (ToolRegistry.register reg n f1 d1) n f2 d2)
        n k).1 = ToolRegistry.runToolResult f2 k := by
  refine ⟨dictGet_dictSet_self _ n f2, ?_, ?_, ?_, ?_⟩
  · exact count_dictKeys_dictSet _ n f2 (nodup_dictKeys_dictSet reg.tools n f1 hnd)
  · simp [ToolRegistry.register]
  · simp [ToolRegistry.register, ToolRegistry.toolsInfo, hd1, hd2]
  · rw [execute_of_lookup_some _ n k f2 (dictGet_dictSet_self _ n f2)]

/-- Witness for C9: registering `calculate` twice on the empty registry. -/
theorem C9_witness :
    dictGet (ToolRegistry.register (ToolRegistry.register demoEmptyRegistry "calculate"
        demoF1 demoCalcDecl) "calculate" demoF2 demoCalcDecl2).tools "calculate" = some demoF2 ∧
    (dictKeys (ToolRegistry.register (ToolRegistry.register demoEmptyRegistry "calculate"
        demoF1 demoCalcDecl) "calculate" demoF2 demoCalcDecl2).tools).count "calculate" = 1 ∧
    (ToolRegistry.register (ToolRegistry.register demoEmptyRegistry "calculate" demoF1
        demoCalcDecl) "calculate" demoF2 demoCalcDecl2).tool_definitions =
      demoEmptyRegistry.tool_definitions ++ [demoCalcDecl, demoCalcDecl2] ∧
    ToolRegistry.toolsInfo (ToolRegistry.register (ToolRegistry.register demoEmptyRegistry
        "calculate" demoF1 demoCalcDecl) "calculate" demoF2 demoCalcDecl2) =
      ToolRegistry.toolsInfo demoEmptyRegistry ++
        ["- " ++ "calculate" ++ ": " ++ demoCalcDecl.description,
         "- " ++ "calculate" ++ ": " ++ demoCalcDecl2.description] ∧
    (ToolRegistry.execute (ToolRegistry.register (ToolRegistry.register demoEmptyRegistry
        "calculate" demoF1 demoCalcDecl) "calculate" demoF2 demoCalcDecl2) "calculate" ()).1 =
      ToolRegistry.runToolResult demoF2 () :=
  C9_duplicate_registration_asymmetry demoEmptyRegistry "calculate" demoF1 demoF2 demoCalcDecl
    demoCalcDecl2 () rfl rfl (by decide)

/-- C10: for every operand a, calculate "divide" a 0 is not error-shaped:
it is the success dict whose result field is the literal string
"Error: Division by zero", with no "error" key. -/
theorem C10_divide_by_zero_success_payload {α : Type} (ops : CalcOps α) (a b : α)
    (hz : ops.isZero b = true) :
    calculate ops "divide" a (some b) =
      [("operation", CalcVal.str "divide"), ("operand_a", CalcVal.num a),
       ("operand_b", CalcVal.num b), ("result", CalcVal.str "Error: Division by zero")] ∧
    dictGet (calculate ops "divide" a (some b)) "error" = Option.none ∧
    dictGet (calculate ops "divide" a (some b)) "result" =
      some (CalcVal.str "Error: Division by zero") := by
  have hcalc : calculate ops "divide" a (some b) =
      [("operation", CalcVal.str "divide"), ("operand_a", CalcVal.num a),
       ("operand_b", CalcVal.num b), ("result", CalcVal.str "Error: Division by zero")] := by
    unfold calculate
    rw [if_neg (by decide : ¬ "divide" ∉ calcOpNames)]
    rw [if_neg (by decide : ¬ "divide" = "sqrt")]
    simp [calcBinOp, hz, calcSuccess]
  refine ⟨hcalc, ?_, ?_⟩ <;> rw [hcalc] <;> simp [dictGet]

/-- Witness for C10: dividing 5 by 0 at the rational demo instance. -/
theorem C10_witness :
    ratCalcOps.isZero 0 = true ∧
    (calculate ratCalcOps "divide" 5 (some 0) =
      [("operation", CalcVal.str "divide"), ("operand_a", CalcVal.num (5 : ℚ)),
       ("operand_b", CalcVal.num 0), ("result", CalcVal.str "Error: Division by zero")] ∧
    dictGet (calculate ratCalcOps "divide" 5 (some 0)) "error" = Option.none ∧
    dictGet (calculate ratCalcOps "divide" 5 (some 0)) "result" =
      some (CalcVal.str "Error: Division by zero")) :=
  ⟨by decide, C10_divide_by_zero_success_payload ratCalcOps 5 0 (by decide)⟩

/-- C3: against any backend that answers every message with a tool-call
directive and never a final answer, one user turn terminates after exactly
5 tool cycles (the loop is a total function, so it cannot run forever),
prints no model-authored final text, and reports the iteration-exceeded
warning. -/
theorem C3_iteration_bound {κ σ : Type} (reg : ToolRegistry κ)
    (send : σ → String → PyObj → σ × ModelResponse κ) (st0 : σ) (r0 : ModelResponse κ)
    (hsend : ∀ (st : σ) (n : String) (r : PyObj),
      ((send st n r).2).function_call.isSome = true)
    (h0 : r0.function_call.isSome = true) :
    (runTurn reg send st0 r0).cycles.length = 5 ∧
    (runTurn reg send st0 r0).finalText = Option.none ∧
    (runTurn reg send st0 r0).warned = true := by
  have hnone := dispatchAux_allcalls send max_iterations hsend max_iterations reg 0 st0 r0
    (by simp) h0
  have hspec := (dispatchAux_spec send max_iterations max_iterations reg 0 st0 r0 (by simp)).1
    hnone
  refine ⟨?_, ?_, ?_⟩
  · rw [runTurn_cycles]
    simpa [max_iterations] using hspec.1
  · rw [runTurn_finalText]
    exact hnone
  · rw [runTurn_warned]
    simp only [decide_eq_true_eq]
    rw [hspec.2]
    simp [max_iterations]

/-- Witness for C3: the scripted always-call backend over the empty
registry runs exactly 5 cycles and warns. -/
theorem C3_witness :
    (runTurn demoEmptyRegistry demoAlwaysCallSend () demoCallResp).cycles.length = 5 ∧
    (runTurn demoEmptyRegistry demoAlwaysCallSend () demoCallResp).finalText = Option.none ∧
    (runTurn demoEmptyRegistry demoAlwaysCallSend () demoCallResp).warned = true :=
  C3_iteration_bound demoEmptyRegistry demoAlwaysCallSend () demoCallResp
    (fun _ _ _ => rfl) rfl

/-- C4 as stated is false at this concrete input: the scripted backend
issues 4 tool calls and then the final answer, so the 5th loop pass prints
the model-authored final text "done", yet the max-iterations warning is
surfaced as well, because main tests `iteration >= max_iterations` after
the loop and the counter reached 5. Hence a turn that ends with the model
final text can still surface the warning, and when the bound is reached
the warning is not necessarily surfaced instead of a model answer. -/
theorem C4_counterexample :
    (runTurn demoEmptyRegistry cexSend 0 cexRespCall).finalText = some "done" ∧
    (runTurn demoEmptyRegistry cexSend 0 cexRespCall).warned = true := by
  rw [runTurn_finalText, runTurn_warned]
  simp only [max_iterations]
  simp [dispatchAux, cexSend, cexRespCall, cexRespFinal, demoEmptyRegistry,
    ToolRegistry.execute, dictGet, LoopOut.addCycle]

/-- C4 amended: the warning is surfaced exactly when the loop used all 5
passes, i.e. when at least 4 tool cycles occurred; a final answer within
the first 4 passes (at most 3 tool cycles) does not surface it, a final
answer on the 5th pass (exactly 4 tool cycles) surfaces both the answer
and the warning, and the final text is withheld exactly when all 5 passes
were tool cycles. -/
theorem C4_amended_warning_iff {κ σ : Type} (reg : ToolRegistry κ)
    (send : σ → String → PyObj → σ × ModelResponse κ) (st0 : σ) (r0 : ModelResponse κ) :
    ((runTurn reg send st0 r0).warned = true ↔
      4 ≤ (runTurn reg send st0 r0).cycles.length) ∧
    ((runTurn reg send st0 r0).finalText = Option.none ↔
      (runTurn reg send st0 r0).cycles.length = 5) := by
  rw [runTurn_cycles, runTurn_finalText, runTurn_warned]
  simp only [decide_eq_true_eq]
  have hspec := dispatchAux_spec send max_iterations max_iterations reg 0 st0 r0 (by simp)
  cases hft : (dispatchAux reg send max_iterations 0 st0 r0).finalText with
  | none =>
      obtain ⟨hlen, hiter⟩ := hspec.1 hft
      rw [hiter, hlen]
      simp [max_iterations]
  | some t =>
      obtain ⟨hlt, hiter⟩ := hspec.2 t hft
      rw [hiter]
      simp only [max_iterations] at hlt ⊢
      refine ⟨by omega, ?_, ?_⟩
      · intro hc
        exact Option.noConfusion hc
      · intro hlen
        exact absurd hlen (by omega)

/-- C5: route_llm picks the capable (pro) handle exactly when the
strip/lower-normalized classification text contains the substring
"complex", and the fast (flash) handle otherwise; in particular the stubs
"This is COMPLEX", "simple task" and "" route to pro, flash and flash. -/
theorem C5_route_llm_complex_substring :
    (∀ (gen : String → String) (prompt : String),
        route_llm gen prompt = ModelHandle.pro ↔
          pyIn "complex" (pyLower (pyStrip (gen (routerPrompt prompt)))) = true) ∧
    (∀ (gen : String → String) (prompt : String),
        route_llm gen prompt = ModelHandle.flash ↔
          pyIn "complex" (pyLower (pyStrip (gen (routerPrompt prompt)))) = false) ∧
    (∀ prompt : String, route_llm (fun _ => "This is COMPLEX") prompt = ModelHandle.pro) ∧
    (∀ prompt : String, route_llm (fun _ => "simple task") prompt = ModelHandle.flash) ∧
    (∀ prompt : String, route_llm (fun _ => "") prompt = ModelHandle.flash) := by
  refine ⟨?_, ?_, ?_, ?_, ?_⟩
  · intro gen prompt
    unfold route_llm
    by_cases h : pyIn "complex" (pyLower (pyStrip (gen (routerPrompt prompt)))) = true
    · simp [h]
    · simp [h]
  · intro gen prompt
    unfold route_llm
    by_cases h : pyIn "complex" (pyLower (pyStrip (gen (routerPrompt prompt)))) = true
    · simp [h]
    · simp [h]
  · intro prompt
    rfl
  · intro prompt
    rfl
  · intro prompt
    rfl

/-- C6: for a non-empty allowed set, classify_intent returns the parsed
label when the (trimmed) backend text parses as a JSON object whose intent
field is an allowed label; it fails with a raised fault (never a silent
default) when the text does not parse as JSON or when the intent value is
outside the allowed set. -/
theorem C6_classify_intent_validation (loads : String → Except String PyJson)
    (gen : String → String) (user_input : String) (intents : List String)
    (_hne : intents ≠ []) :
    (∀ (fields : List (String × PyJson)) (l : String),
        loads (pyStrip (gen (intentPrompt user_input intents))) = Except.ok (PyJson.obj fields) →
        dictGet fields "intent" = some (PyJson.str l) → l ∈ intents →
        classify_intent loads gen user_input intents = Except.ok ⟨l⟩) ∧
    (∀ e : String,
        loads (pyStrip (gen (intentPrompt user_input intents))) = Except.error e →
        ∃ msg, classify_intent loads gen user_input intents = Except.error msg) ∧
    (∀ (fields : List (String × PyJson)) (l : String),
        loads (pyStrip (gen (intentPrompt user_input intents))) = Except.ok (PyJson.obj fields) →
        dictGet fields "intent" = some (PyJson.str l) → l ∉ intents →
        ∃ msg, classify_intent loads gen user_input intents = Except.error msg) := by
  refine ⟨?_, ?_, ?_⟩
  · intro fields l hload hfield hmem
    unfold classify_intent
    rw [hload]
    simp [build_dynamic_schema, hfield, hmem]
  · intro e hload
    unfold classify_intent
    rw [hload]
    exact ⟨"JSONDecodeError: " ++ e, rfl⟩
  · intro fields l hload hfield hmem
    unfold classify_intent
    rw [hload]
    simp [build_dynamic_schema, hfield, hmem]

/-- Witness for C6: the order_food stub is accepted, the cancel_flight
stub (outside the allowed set) raises a validation fault. -/
theorem C6_witness :
    classify_intent demoLoads demoGen "I want to order pizza tonight"
      ["book_flight", "order_food"] = Except.ok ⟨"order_food"⟩ ∧
    (∃ msg, classify_intent demoLoadsBad demoGenBad "I want to order pizza tonight"
      ["book_flight", "order_food"] = Except.error msg) :=
  ⟨(C6_classify_intent_validation demoLoads demoGen "I want to order pizza tonight"
      ["book_flight", "order_food"] (by simp)).1
      [("intent", PyJson.str "order_food")] "order_food" rfl rfl (by simp),
   (C6_classify_intent_validation demoLoadsBad demoGenBad "I want to order pizza tonight"
      ["book_flight", "order_food"] (by simp)).2.2
      [("intent", PyJson.str "cancel_flight")] "cancel_flight" rfl rfl (by simp)⟩
